import Mathlib

/-!
Shallow embedding of the trafikverket-helper core: the credential lifecycle
manager (src/api/session_manager.py), the polling client
(src/api/trafikverket.py), the ride database (src/helpers/database.py), the
payload stripper (src/helpers/helpers.py) and one iteration of the monitor
loop (src/modes/monitor_rides.py).

Modelling conventions:
  * Python `dict[str, str]` is an association list with unique keys, updated
    in place like `dict.update` (replace the existing entry, else append).
  * `datetime` values are minutes since the proleptic-Gregorian year 1 as an
    `Int`; `refresh_interval = timedelta(minutes=5)` becomes the constant 5
    and the 15-minute expiry warning window the constant 15.
  * Network effects are an oracle: renewal round-trips consume successive
    values of `rho : Nat -> RenewalResp`, and the count of consumed values is
    the number of renewal round-trips performed.
  * Exceptions are an explicit `Outcome` type; `requests` transport errors,
    JSON decode failures (`ValueError`) and uncaught `KeyError`/`IndexError`
    are all distinguished, exactly as the Python control flow distinguishes
    them.
-/

namespace Trafikverket

/-- Python `dict[str, str]` as an association list (insertion ordered, keys
unique in every dict the code builds). -/
abbrev Dict := List (String × String)

/-- `d[k]` lookup: the value at the first matching key. -/
def dictGet (d : Dict) (k : String) : Option String :=
  (d.find? (fun p => p.1 == k)).map (fun p => p.2)

/-- `d[k] = v`: replace the value of an existing key in place, else append. -/
def dictSet (d : Dict) (k v : String) : Dict :=
  match d with
  | [] => [(k, v)]
  | p :: rest => if p.1 == k then (k, v) :: rest else p :: dictSet rest k v

/-- Python `d.update(new)`: assign every pair of `new`, in order. -/
def dictUpdate (d : Dict) (new : Dict) : Dict :=
  new.foldl (fun acc kv => dictSet acc kv.1 kv.2) d

/-- The mutable state of `SessionManager` relevant to the claims:
`self.current_cookies` and `self.last_refresh_time` (minutes, `none` at
start-up). -/
structure SMState where
  cookies : Dict
  lastRefresh : Option Int
  deriving Repr, DecidableEq

/-- `SessionManager.get_current_cookies` (returns a copy; copying is the
identity in a pure model). -/
def get_current_cookies (st : SMState) : Dict :=
  st.cookies

/-- `SessionManager.update_cookies(new_cookies)`: if the supplied dict is
non-empty (Python truthiness), merge it in and stamp `last_refresh_time`. -/
def update_cookies (st : SMState) (newCookies : Dict) (now : Int) : Bool × SMState :=
  if newCookies ≠ [] then
    (true, { cookies := dictUpdate st.cookies newCookies, lastRefresh := some now })
  else
    (false, st)

/-- `self.refresh_interval = timedelta(minutes=5)`. -/
def refreshIntervalMinutes : Int := 5

/-- The `timedelta(minutes=15)` expiry warning window in
`should_refresh_cookies`. -/
def expiryWarnMinutes : Int := 15

/-- Leap-year rule used by Python `datetime`. -/
def isLeapYear (y : Nat) : Bool :=
  (y % 4 == 0 && y % 100 != 0) || y % 400 == 0

/-- Days in a month of the proleptic Gregorian calendar. -/
def daysInMonth (y m : Nat) : Nat :=
  if m == 2 then (if isLeapYear y then 29 else 28)
  else if m == 4 || m == 6 || m == 9 || m == 11 then 30
  else 31

/-- Days in all years before year `y` (year 1 is the first year). -/
def daysBeforeYear (y : Nat) : Nat :=
  365 * (y - 1) + (y - 1) / 4 - (y - 1) / 100 + (y - 1) / 400

/-- Days in the months of year `y` before month `m`. -/
def daysBeforeMonth (y m : Nat) : Nat :=
  (List.range (m - 1)).foldl (fun acc i => acc + daysInMonth y (i + 1)) 0

/-- Minutes since the start of year 1 of a calendar date-time, the ordinal
arithmetic `datetime` subtraction uses. -/
def toEpochMinutes (y mo d h mi : Nat) : Nat :=
  ((daysBeforeYear y + daysBeforeMonth y mo + (d - 1)) * 24 + h) * 60 + mi

/-- Python `s.split(sep)` for a one-character separator, on character
lists (structural, so closed instances evaluate in the kernel). -/
def splitOnChar (l : List Char) (sep : Char) : List (List Char) :=
  match l with
  | [] => [[]]
  | c :: rest =>
    let r := splitOnChar rest sep
    if c == sep then [] :: r
    else
      match r with
      | [] => [[c]]
      | h :: t => (c :: h) :: t

/-- Python `s.split(sep, 1)` for a one-character separator: the text before
the first separator and everything after it (callers check that the
separator occurs first). -/
def splitOnceChar (l : List Char) (sep : Char) : List Char × List Char :=
  match l with
  | [] => ([], [])
  | c :: rest =>
    if c == sep then ([], rest)
    else
      let r := splitOnceChar rest sep
      (c :: r.1, r.2)

/-- The whitespace set of Python `str.strip()`. -/
def isSpaceChar (c : Char) : Bool :=
  c == ' ' || c == '\t' || c == '\n' || c == '\r' || c == '\x0b' || c == '\x0c'

/-- Python `s.strip()`. -/
def trimChars (l : List Char) : List Char :=
  ((l.dropWhile isSpaceChar).reverse.dropWhile isSpaceChar).reverse

/-- Python `s.lower()` for the ASCII text the code handles. -/
def lowerChars (l : List Char) : List Char :=
  l.map Char.toLower

/-- Value of a non-empty all-digit string, else `none`. -/
def digitsToNat? (l : List Char) : Option Nat :=
  if l ≠ [] ∧ l.all Char.isDigit then
    some (l.foldl (fun n c => n * 10 + (c.toNat - 48)) 0)
  else none

/-- A digit field of `strptime`: between `minW` and `maxW` digits. -/
def parseFieldChars (l : List Char) (minW maxW : Nat) : Option Nat :=
  if minW ≤ l.length ∧ l.length ≤ maxW then digitsToNat? l else none

/-- `datetime.strptime(login_valid, "%Y-%m-%d %H:%M")` from
`get_earliest_cookie_expiration`: four year digits, one or two digits for
month, day, hour and minute, with `datetime` range validation; `none` models
the `ValueError` that the caller swallows. -/
def parseLoginValid (s : String) : Option Nat :=
  match splitOnChar s.data ' ' with
  | [datePart, timePart] =>
    match splitOnChar datePart '-', splitOnChar timePart ':' with
    | [ys, ms, ds], [hs, mis] =>
      match parseFieldChars ys 4 4, parseFieldChars ms 1 2, parseFieldChars ds 1 2,
            parseFieldChars hs 1 2, parseFieldChars mis 1 2 with
      | some y, some mo, some d, some h, some mi =>
        if 1 ≤ y ∧ y ≤ 9999 ∧ 1 ≤ mo ∧ mo ≤ 12 ∧ 1 ≤ d ∧ d ≤ daysInMonth y mo
            ∧ h ≤ 23 ∧ mi ≤ 59 then
          some (toEpochMinutes y mo d h mi)
        else none
      | _, _, _, _, _ => none
    | _, _ => none
  | _ => none

/-- `SessionManager.get_earliest_cookie_expiration`: parse the `LoginValid`
cookie when present and non-empty (Python truthiness); a parse failure leaves
the result `None`. -/
def get_earliest_cookie_expiration (st : SMState) : Option Int :=
  match dictGet st.cookies "LoginValid" with
  | some loginValid =>
    if loginValid ≠ "" then (parseLoginValid loginValid).map (fun n => (n : Int))
    else none
  | none => none

/-- `SessionManager.should_refresh_cookies`: the sequencing of the two
`return True` checks of the Python body (elapsed interval, then the expiry
warning window); it only reads state. -/
def should_refresh_cookies (st : SMState) (now : Int) : Bool :=
  if (match st.lastRefresh with
      | some t => decide (now - t > refreshIntervalMinutes)
      | none => false) then
    true
  else
    match get_earliest_cookie_expiration st with
    | some e => decide (e - now < expiryWarnMinutes)
    | none => false

/-- The result of one round-trip to the `/Boka/getCookie` renewal endpoint:
a raised transport exception, or a status code with response headers. -/
inductive RenewalResp where
  | transportError
  | ok (statusCode : Nat) (headers : List (String × String))
  deriving Repr, DecidableEq

/-- The header loop of `refresh_cookies_proactively`: collect every
`Set-Cookie` header (case-insensitive), keep the part before the first `;`,
split it once on `=` and strip both sides. -/
def extract_header_cookies (headers : List (String × String)) : Dict :=
  headers.foldl
    (fun acc hv =>
      if lowerChars hv.1.data == "set-cookie".data then
        if hv.2.data.contains '=' then
          let nameValue := (splitOnChar hv.2.data ';').headD []
          if nameValue.contains '=' then
            let p := splitOnceChar nameValue '='
            dictSet acc (String.mk (trimChars p.1)) (String.mk (trimChars p.2))
          else acc
        else acc
      else acc)
    []

/-- `SessionManager.refresh_cookies_proactively`, one round-trip `resp`:
on HTTP 200 with at least one extracted cookie, merge the new cookies and
stamp `last_refresh_time`; every failure path (`except` on a transport
error, non-200 status, empty cookie extraction) returns `False` with the
state untouched. The config-file save inside the success branch has no
effect on this state. -/
def refresh_cookies_proactively (st : SMState) (resp : RenewalResp) (now : Int) :
    Bool × SMState :=
  match resp with
  | .transportError => (false, st)
  | .ok statusCode headers =>
    if statusCode == 200 then
      let newCookies := extract_header_cookies headers
      if newCookies ≠ [] then
        (true, { cookies := dictUpdate st.cookies newCookies, lastRefresh := some now })
      else
        (false, st)
    else
      (false, st)

/-- Substring search on character lists (the search part of `re.search` for a
literal pattern). -/
def listContainsSub (l pat : List Char) : Bool :=
  match l with
  | [] => pat.isEmpty
  | _ :: rest => pat.isPrefixOf l || listContainsSub rest pat

/-- Index of the first occurrence of `pat` in `l`, if any. -/
def findSubIdx (l pat : List Char) : Option Nat :=
  match l with
  | [] => if pat.isEmpty then some 0 else none
  | _ :: rest =>
    if pat.isPrefixOf l then some 0 else (findSubIdx rest pat).map (fun i => i + 1)

/-- `re.search(a + ".*" + b, text)` for literal `a`, `b`: a match is an
occurrence of `a` followed by `b` with no newline in between (`.` does not
match a newline), so it lives inside one newline-delimited chunk; within a
chunk, searching `b` after the first occurrence of `a` is complete. -/
def matchDotStar (t : List Char) (a b : List Char) : Bool :=
  (splitOnChar t '\n').any (fun chunk =>
    match findSubIdx chunk a with
    | some i => listContainsSub (chunk.drop (i + a.length)) b
    | none => false)

/-- The `expired_patterns` scan of `SessionManager.is_session_expired`:
case-insensitive search of the seven regular expressions over the response
body (three of them contain a `.*` gap, the rest are literal). -/
def matches_expired_patterns (text : String) : Bool :=
  let t := lowerChars text.data
  matchDotStar t "session".data "expired".data ||
  matchDotStar t "login".data "required".data ||
  listContainsSub t "unauthorized".data ||
  listContainsSub t "401".data ||
  listContainsSub t "403".data ||
  listContainsSub t "nullreferenceexception".data ||
  matchDotStar t "status".data "500".data

/-- One renewal round-trip: feed the next oracle response to
`refresh_cookies_proactively` and count it. The running pair is the manager
state and the number of round-trips consumed so far. -/
def doRefresh (rho : Nat → RenewalResp) (now : Int) (s : SMState × Nat) :
    Bool × SMState × Nat :=
  let r := refresh_cookies_proactively s.1 (rho s.2) now
  (r.1, r.2, s.2 + 1)

/-- `SessionManager.ensure_fresh_cookies`: renew when due, else report the
cookies as still fresh. -/
def ensure_fresh_cookies (rho : Nat → RenewalResp) (now : Int) (s : SMState × Nat) :
    Bool × SMState × Nat :=
  if should_refresh_cookies s.1 now then doRefresh rho now s else (true, s)

/-- `SessionManager.is_session_expired(response_text)`: when a refresh is
due, one proactive renewal decides the answer (renewed means not expired);
otherwise the textual pattern scan decides it. -/
def is_session_expired (rho : Nat → RenewalResp) (now : Int) (s : SMState × Nat)
    (text : String) : Bool × SMState × Nat :=
  if should_refresh_cookies s.1 now then
    let r := doRefresh rho now s
    (!r.1, r.2)
  else
    (matches_expired_patterns text, s)

/-- `TrafikverketAPI._handle_session_error(response_text)`: returns `True`
exactly when the session was detected expired and the proactive renewal it
then performs succeeds. -/
def handle_session_error (rho : Nat → RenewalResp) (now : Int) (s : SMState × Nat)
    (text : String) : Bool × SMState × Nat :=
  let e := is_session_expired rho now s text
  if e.1 then doRefresh rho now e.2 else (false, e.2)

/-- One occasion sub-record of an availability bundle (the five fields the
code reads). -/
structure Occasion where
  date : String
  time : String
  locationName : String
  cost : String
  name : String
  deriving Repr, DecidableEq

/-- One bundle of `response_data["data"]["bundles"]`. -/
structure Bundle where
  occasions : List Occasion
  deriving Repr, DecidableEq

/-- The object under the `data` key; `bundles := none` models a missing
`bundles` key (a `KeyError` on access). -/
structure DataObj where
  bundles : Option (List Bundle)
  deriving Repr, DecidableEq

/-- A parsed availability payload; `none` fields model missing keys. -/
structure Payload where
  status : Option Int
  data : Option DataObj
  deriving Repr, DecidableEq

/-- One response of the availability endpoint: transport status code, raw
body text (scanned for session-expiry markers), and the result of `r.json()`
(`none` models the `ValueError` of a JSON decode failure). -/
structure AvailResp where
  statusCode : Nat
  text : String
  json : Option Payload
  deriving Repr, DecidableEq

/-- How a call to `TrafikverketAPI.get_available_dates` ends: a returned
value, one of the two typed exceptions of `api/exceptions.py`, or an
uncaught `KeyError`/`IndexError` escaping the call. -/
inductive Outcome where
  | bundlesResult (bs : List Bundle)
  | datesResult (ds : List String)
  | httpStatusError (code : Nat)
  | sessionExpiredError
  | keyError (key : String)
  | indexError
  deriving Repr, DecidableEq

/-- The list comprehension
`[ride["occasions"][0]["date"] for ride in available_rides]`; `none` models
the `IndexError` raised by `occasions[0]` on an empty list. -/
def dates_found (bundles : List Bundle) : Option (List String) :=
  bundles.mapM (fun ride => (ride.occasions.head?).map (fun o => o.date))

/-- Result of one full `get_available_dates` call: its outcome, the final
manager state, the renewal round-trips consumed, and how many availability
requests were sent (1, or 2 when the call retried). -/
structure CallResult where
  outcome : Outcome
  sm : SMState
  roundTrips : Nat
  requestsSent : Nat
  deriving Repr, DecidableEq

/-- The `# Handle response` tail of `get_available_dates`, acting on the
response `r` that survives the optional retry. `except ValueError` only
catches the JSON decode failure, so a missing `status`/`data`/`bundles` key
or an empty `occasions` list escapes as `KeyError`/`IndexError`. -/
def handle_response (rho : Nat → RenewalResp) (now : Int) (s2 : SMState × Nat)
    (r : AvailResp) (reqs : Nat) (extended : Bool) : CallResult :=
  if r.statusCode == 200 then
    match r.json with
    | some payload =>
      match payload.status with
      | none => CallResult.mk (.keyError "status") s2.1 s2.2 reqs
      | some s =>
        if s == 200 then
          match payload.data with
          | none => CallResult.mk (.keyError "data") s2.1 s2.2 reqs
          | some dataObj =>
            match dataObj.bundles with
            | none => CallResult.mk (.keyError "bundles") s2.1 s2.2 reqs
            | some availableRides =>
              match dates_found availableRides with
              | none => CallResult.mk .indexError s2.1 s2.2 reqs
              | some ds =>
                if extended then CallResult.mk (.bundlesResult availableRides) s2.1 s2.2 reqs
                else CallResult.mk (.datesResult ds) s2.1 s2.2 reqs
        else
          let h2 := handle_session_error rho now s2 r.text
          if h2.1 then CallResult.mk .sessionExpiredError h2.2.1 h2.2.2 reqs
          else CallResult.mk (.httpStatusError r.statusCode) h2.2.1 h2.2.2 reqs
    | none =>
      let h2 := handle_session_error rho now s2 r.text
      if h2.1 then CallResult.mk .sessionExpiredError h2.2.1 h2.2.2 reqs
      else CallResult.mk (.httpStatusError r.statusCode) h2.2.1 h2.2.2 reqs
  else
    CallResult.mk (.httpStatusError r.statusCode) s2.1 s2.2 reqs

/-- `TrafikverketAPI.get_available_dates(location_id, extended_information)`.
The first availability request yields `resp1`; when `_handle_session_error`
reports a successful renewal, the single retry yields `resp2`. Renewal
round-trips consume `rho`. -/
def get_available_dates (rho : Nat → RenewalResp) (now : Int) (st0 : SMState)
    (resp1 resp2 : AvailResp) (extended : Bool) : CallResult :=
  let s1 := (ensure_fresh_cookies rho now (st0, 0)).2
  let h1 := handle_session_error rho now s1 resp1.text
  let r := if h1.1 then resp2 else resp1
  let reqs := if h1.1 then 2 else 1
  handle_response rho now h1.2 r reqs extended

/-- The ride dictionary produced by `helpers.strip_useless_info` and consumed
by `store_rides` (five fields). -/
structure Ride5 where
  name : String
  date : String
  time : String
  location : String
  cost : String
  deriving Repr, DecidableEq

/-- `helpers.strip_useless_info(rides)`: for every bundle, keep the five
fields of `ride["occasions"][0]`; `none` models the `IndexError` raised when
an `occasions` list is empty. -/
def strip_useless_info (rides : List Bundle) : Option (List Ride5) :=
  rides.mapM (fun ride =>
    (ride.occasions.head?).map (fun o =>
      Ride5.mk o.name o.date o.time o.locationName o.cost))

/-- One row of the `rides` table (surrogate id omitted: nothing reads it). -/
structure Row where
  name : String
  date : String
  time : String
  location : String
  cost : String
  examination_type : String
  created_at : Int
  deriving Repr, DecidableEq

/-- The dict built per row by `RideDatabase.get_all_rides` — the six selected
columns, `created_at` included, in the order of the Python dict literal.
`tuple(ride.items())` in `get_rides_as_set` is exactly this record. -/
structure RideRecord where
  name : String
  date : String
  time : String
  location : String
  cost : String
  created_at : Int
  deriving Repr, DecidableEq

/-- `RideDatabase.store_rides(rides, examination_type)`: one transaction that
deletes every row of the examination type and inserts the batch, each new row
stamped `created_at = now` (the `CURRENT_TIMESTAMP` column default). -/
def store_rides (db : List Row) (rides : List Ride5) (examType : String) (now : Int) :
    List Row :=
  db.filter (fun r => r.examination_type != examType) ++
    rides.map (fun ride =>
      Row.mk ride.name ride.date ride.time ride.location ride.cost examType now)

/-- `RideDatabase.get_all_rides(examination_type)`: the six selected columns
of the rows of the examination type. The SQL `ORDER BY date DESC, time DESC`
only permutes the list and every claim below is about the comparable set, so
the sort is omitted. -/
def get_all_rides (db : List Row) (examType : String) : List RideRecord :=
  (db.filter (fun r => r.examination_type == examType)).map
    (fun r => RideRecord.mk r.name r.date r.time r.location r.cost r.created_at)

/-- `RideDatabase.get_rides_as_set(examination_type)`:
`{tuple(ride.items()) for ride in rides}` — the set of full six-field
records. -/
def get_rides_as_set (db : List Row) (examType : String) : Finset RideRecord :=
  (get_all_rides db examType).toFinset

/-- What one iteration of the monitoring loop leaves behind: the database,
the fresh comparable set, and the two reported diffs. -/
structure CycleResult where
  db : List Row
  currentSet : Finset RideRecord
  newRides : Finset RideRecord
  removedRides : Finset RideRecord
  deriving DecidableEq

/-- The persistence-and-diff tail of one `modes.monitor_rides.run` cycle
(lines 97-155): store the batch only when it is non-empty
(`if available_rides_list:`), rebuild the comparable set, and report
`new = current - last` and `removed = last - current`. -/
def monitor_cycle (db : List Row) (lastAvailableRides : Finset RideRecord)
    (availableRidesList : List Ride5) (examType : String) (now : Int) : CycleResult :=
  let db1 :=
    if availableRidesList ≠ [] then store_rides db availableRidesList examType now
    else db
  let current := get_rides_as_set db1 examType
  CycleResult.mk db1 current (current \ lastAvailableRides) (lastAvailableRides \ current)

/-- Program counter of one thread running
`SessionManager.ensure_fresh_cookies`. The body is
`if self.should_refresh_cookies(): return self.refresh_cookies_proactively()`
with no lock anywhere in `SessionManager`, and the renewal round-trip blocks
on the network, so the staleness check and the renewal are separate atomic
steps between which other threads run. -/
inductive TPC where
  | start
  | refreshing
  | finished (res : Bool)
  deriving Repr, DecidableEq

/-- Shared state of the concurrent callers: the manager state, the number of
renewal round-trips performed by anyone, and each thread's program counter. -/
structure ConcState where
  sm : SMState
  trips : Nat
  pcs : List TPC
  deriving Repr, DecidableEq

/-- Run one atomic step of thread `i`: at `start`, evaluate the staleness
check and either proceed to the renewal or finish fresh; at `refreshing`,
perform one full renewal round-trip. A finished or absent thread does
nothing. -/
def stepThread (rho : Nat → RenewalResp) (now : Int) (c : ConcState) (i : Nat) :
    ConcState :=
  match c.pcs.get? i with
  | some .start =>
    if should_refresh_cookies c.sm now then { c with pcs := c.pcs.set i .refreshing }
    else { c with pcs := c.pcs.set i (.finished true) }
  | some .refreshing =>
    let r := refresh_cookies_proactively c.sm (rho c.trips) now
    { sm := r.2, trips := c.trips + 1, pcs := c.pcs.set i (.finished r.1) }
  | _ => c

/-- Execute an interleaving: the schedule lists which thread takes the next
atomic step. -/
def runSchedule (rho : Nat → RenewalResp) (now : Int) (c0 : ConcState)
    (sched : List Nat) : ConcState :=
  sched.foldl (stepThread rho now) c0

/-! Concrete inputs used by the scenario theorems below. -/

/-- The availability body of the end-to-end failure scenario. -/
def nullRefBody : String := "\x7b\"status\":500,\"type\":\"NullReferenceException\"\x7d"

/-- Transport status 200, the `NullReferenceException` body, parsed with an
embedded status of 500. -/
def nullRefAvailResp : AvailResp :=
  { statusCode := 200, text := nullRefBody,
    json := some { status := some 500, data := none } }

/-- Transport status 200, valid JSON that carries an embedded status of 200
but no `data` key. -/
def missingDataResp : AvailResp :=
  { statusCode := 200, text := "\x7b\"status\":200\x7d",
    json := some { status := some 200, data := none } }

/-- Transport status 200 with a body that is not valid JSON and matches no
session-expiry pattern. -/
def invalidJsonResp : AvailResp :=
  { statusCode := 200, text := "<html>Service Unavailable</html>", json := none }

/-- Transport status 200, embedded status 200, one bundle whose `occasions`
list is empty. -/
def emptyOccasionsResp : AvailResp :=
  { statusCode := 200, text := "\x7b\"status\":200,\"data\":\x7b\"bundles\":[\x7b\"occasions\":[]\x7d]\x7d\x7d",
    json := some { status := some 200, data := some { bundles := some [{ occasions := [] }] } } }

/-- A manager state renewed at minute 0 with no cookies: renewal is not due
at minute 0, and due at minute 6. -/
def freshState : SMState := { cookies := [], lastRefresh := some 0 }

/-- A renewal oracle on which every round-trip raises a transport error. -/
def renewalAlwaysFails : Nat → RenewalResp := fun _ => RenewalResp.transportError

/-- A renewal oracle on which every round-trip answers HTTP 200 with one
fresh `Set-Cookie` header. -/
def renewalAlwaysSucceeds : Nat → RenewalResp :=
  fun _ => RenewalResp.ok 200 [("Set-Cookie", "LoginValid=x")]

/-- One ride of the shape the monitoring loop stores. -/
def sampleRide : Ride5 :=
  { name := "Kunskapsprov B", date := "2025-01-15", time := "10:00",
    location := "Stockholm", cost := "325kr" }

/-- First occasion of a two-occasion bundle. -/
def occMorning : Occasion :=
  { date := "2025-03-01", time := "09:00", locationName := "Stockholm",
    cost := "500kr", name := "X" }

/-- Second occasion of a two-occasion bundle. -/
def occAfternoon : Occasion :=
  { date := "2025-03-02", time := "14:00", locationName := "Uppsala",
    cost := "600kr", name := "Y" }

/-! Association-list lemmas about the dict model. -/

theorem dictGet_dictSet_self (d : Dict) (k v : String) :
    dictGet (dictSet d k v) k = some v := by
  induction d with
  | nil => simp [dictSet, dictGet]
  | cons p rest ih =>
    by_cases h : p.1 == k
    · simp [dictSet, h, dictGet]
    · simp only [dictSet, h, if_false]
      simpa [dictGet, List.find?, h] using ih

theorem dictGet_dictSet_ne (d : Dict) (k v k2 : String) (h : k2 ≠ k) :
    dictGet (dictSet d k v) k2 = dictGet d k2 := by
  have hk2 : (k == k2) = false := beq_eq_false_iff_ne.mpr (fun e => h e.symm)
  induction d with
  | nil => simp [dictSet, dictGet, List.find?, hk2]
  | cons p rest ih =>
    by_cases hp : p.1 == k
    · have hp2 : (p.1 == k2) = false := by
        refine beq_eq_false_iff_ne.mpr ?_
        intro e
        exact h (e.symm.trans (beq_iff_eq.mp hp))
      simp [dictSet, hp, dictGet, List.find?, hk2, hp2]
    · simp only [dictSet, hp, if_false]
      by_cases hq : p.1 == k2
      · simp [dictGet, List.find?, hq]
      · simpa [dictGet, List.find?, hq] using ih

theorem dictGet_isSome_dictSet (d : Dict) (k v k2 : String)
    (h : (dictGet d k2).isSome) : (dictGet (dictSet d k v) k2).isSome := by
  by_cases hk : k2 = k
  · subst hk; simp [dictGet_dictSet_self]
  · rwa [dictGet_dictSet_ne d k v k2 hk]

theorem dictGet_isSome_dictUpdate (d newPairs : Dict) (k2 : String)
    (h : (dictGet d k2).isSome) : (dictGet (dictUpdate d newPairs) k2).isSome := by
  induction newPairs generalizing d with
  | nil => simpa [dictUpdate] using h
  | cons kv rest ih =>
    simp only [dictUpdate, List.foldl_cons] at *
    exact ih (dictSet d kv.1 kv.2) (dictGet_isSome_dictSet d kv.1 kv.2 k2 h)

theorem dictGet_dictUpdate_of_not_key (d newPairs : Dict) (k : String)
    (h : ∀ kv ∈ newPairs, kv.1 ≠ k) :
    dictGet (dictUpdate d newPairs) k = dictGet d k := by
  induction newPairs generalizing d with
  | nil => simp [dictUpdate]
  | cons kv rest ih =>
    simp only [dictUpdate, List.foldl_cons] at *
    rw [ih (dictSet d kv.1 kv.2) (fun p hp => h p (List.mem_cons_of_mem kv hp))]
    exact dictGet_dictSet_ne d kv.1 kv.2 k
      (fun hk => h kv (List.mem_cons_self kv rest) hk.symm)

theorem dictGet_dictUpdate_of_mem (d newPairs : Dict) (k v : String)
    (hnodup : (newPairs.map Prod.fst).Nodup) (hmem : (k, v) ∈ newPairs) :
    dictGet (dictUpdate d newPairs) k = some v := by
  induction newPairs generalizing d with
  | nil => cases hmem
  | cons kv rest ih =>
    simp only [List.map_cons, List.nodup_cons] at hnodup
    rcases List.mem_cons.mp hmem with heq | hrest
    · subst heq
      simp only [dictUpdate, List.foldl_cons]
      have hnk : ∀ p ∈ rest, p.1 ≠ k := by
        intro p hp hpk
        have hm : p.1 ∈ rest.map Prod.fst := List.mem_map_of_mem Prod.fst hp
        rw [hpk] at hm
        exact hnodup.1 hm
      rw [show List.foldl (fun acc kv => dictSet acc kv.1 kv.2) (dictSet d k v) rest
            = dictUpdate (dictSet d k v) rest from rfl]
      rw [dictGet_dictUpdate_of_not_key (dictSet d k v) rest k hnk]
      exact dictGet_dictSet_self d k v
    · simp only [dictUpdate, List.foldl_cons]
      exact ih (dictSet d kv.1 kv.2) hnodup.2 hrest

/-! The claim theorems. -/

/-- C7: `refresh_cookies_proactively`, on any failure — transport error,
non-200 status, or zero extracted cookies — returns failure and leaves the
cookie set and the last-renewal timestamp exactly as they were. -/
theorem refresh_failure_leaves_state_untouched (st : SMState) (resp : RenewalResp)
    (now : Int)
    (h : resp = RenewalResp.transportError ∨
         ∃ code headers, resp = RenewalResp.ok code headers ∧
           (code ≠ 200 ∨ extract_header_cookies headers = [])) :
    refresh_cookies_proactively st resp now = (false, st) := by
  rcases h with h | ⟨code, headers, rfl, h⟩
  · subst h; rfl
  · rcases h with h | h
    · simp [refresh_cookies_proactively, h]
    · by_cases hc : code = 200 <;> simp [refresh_cookies_proactively, hc, h]

/-- Witness for C7: a transport error on a concrete state. -/
theorem refresh_failure_leaves_state_untouched_witness :
    refresh_cookies_proactively ⟨[("A", "1")], some 3⟩ RenewalResp.transportError 9
      = (false, ⟨[("A", "1")], some 3⟩) :=
  refresh_failure_leaves_state_untouched ⟨[("A", "1")], some 3⟩
    RenewalResp.transportError 9 (Or.inl rfl)

/-- C8: `should_refresh_cookies` is true iff the elapsed time since the last
renewal exceeds the 5-minute interval (vacuously false when no renewal ever
happened), or the `LoginValid` credential encodes an expiry instant less
than 15 minutes away; it is a pure function of the state, mutating
nothing. -/
theorem should_refresh_cookies_iff (st : SMState) (now : Int) :
    should_refresh_cookies st now = true ↔
      ((∃ t, st.lastRefresh = some t ∧ now - t > refreshIntervalMinutes) ∨
       (∃ e, get_earliest_cookie_expiration st = some e ∧ e - now < expiryWarnMinutes)) := by
  unfold should_refresh_cookies
  rcases h1 : st.lastRefresh with _ | t <;>
    rcases h2 : get_earliest_cookie_expiration st with _ | e <;>
      simp [h1, h2]

/-- C9: merging a non-empty map of new cookie pairs reports success, keeps
every pre-merge key present, and makes every newly supplied pair the one
found afterwards — in particular the new value wins on a key collision. -/
theorem update_cookies_merge_properties (old newPairs : Dict) (t0 : Option Int)
    (now : Int) (hne : newPairs ≠ [])
    (hnodup : (newPairs.map Prod.fst).Nodup) :
    (update_cookies ⟨old, t0⟩ newPairs now).1 = true ∧
    (∀ k, (dictGet old k).isSome →
      (dictGet (get_current_cookies (update_cookies ⟨old, t0⟩ newPairs now).2) k).isSome) ∧
    (∀ k v, (k, v) ∈ newPairs →
      dictGet (get_current_cookies (update_cookies ⟨old, t0⟩ newPairs now).2) k = some v) := by
  refine ⟨by simp [update_cookies, hne], ?_, ?_⟩
  · intro k h
    simpa [update_cookies, hne, get_current_cookies] using
      dictGet_isSome_dictUpdate old newPairs k h
  · intro k v hv
    simpa [update_cookies, hne, get_current_cookies] using
      dictGet_dictUpdate_of_mem old newPairs k v hnodup hv

/-- Witness for C9: merging `[A=2, B=4]` over `[A=1, C=3]` succeeds and `A`
maps to the newly supplied `2` afterwards. -/
theorem update_cookies_merge_properties_witness :
    (([("A", "2"), ("B", "4")] : Dict) ≠ [] ∧
      (([("A", "2"), ("B", "4")] : Dict).map Prod.fst).Nodup) ∧
    dictGet (get_current_cookies
        (update_cookies ⟨[("A", "1"), ("C", "3")], none⟩ [("A", "2"), ("B", "4")] 7).2) "A"
      = some "2" :=
  ⟨⟨by decide, by decide⟩,
    (update_cookies_merge_properties [("A", "1"), ("C", "3")] [("A", "2"), ("B", "4")]
      none 7 (by decide) (by decide)).2.2 "A" "2" (by decide)⟩

/-- C1: the end-to-end scenario — transport status 200, body
`{"status":500,"type":"NullReferenceException"}` — ends in
`HTTPStatus(200)` when every renewal round-trip fails, and in
`SessionExpiredError` when the renewal succeeds: the code raises the two
failures exactly inverted with respect to the claim and to its own
docstrings ("SessionExpiredError: if the session has expired and cannot be
refreshed"). -/
theorem get_available_dates_failure_kinds_inverted :
    (get_available_dates renewalAlwaysFails 0 freshState nullRefAvailResp
        nullRefAvailResp true).outcome = Outcome.httpStatusError 200 ∧
    (get_available_dates renewalAlwaysSucceeds 0 freshState nullRefAvailResp
        nullRefAvailResp true).outcome = Outcome.sessionExpiredError := by
  decide

/-! Database lemmas shared by the snapshot claims. -/

theorem store_rides_filter_eq (db : List Row) (batch : List Ride5)
    (examType : String) (now : Int) :
    (store_rides db batch examType now).filter
        (fun r => r.examination_type == examType)
      = batch.map (fun ride =>
          Row.mk ride.name ride.date ride.time ride.location ride.cost examType now) := by
  simp only [store_rides, List.filter_append]
  have h1 : (db.filter (fun r => r.examination_type != examType)).filter
      (fun r => r.examination_type == examType) = [] := by
    refine List.filter_eq_nil_iff.mpr ?_
    intro a ha
    have hm := List.of_mem_filter ha
    simp only [bne_iff_ne, ne_eq] at hm
    simpa using hm
  have h2 : (batch.map (fun ride =>
      Row.mk ride.name ride.date ride.time ride.location ride.cost examType now)).filter
        (fun r => r.examination_type == examType)
      = batch.map (fun ride =>
          Row.mk ride.name ride.date ride.time ride.location ride.cost examType now) := by
    refine List.filter_eq_self.mpr ?_
    intro a ha
    obtain ⟨ride, _, rfl⟩ := List.mem_map.mp ha
    simp
  rw [h1, h2, List.nil_append]

theorem store_rides_filter_ne (db : List Row) (batch : List Ride5)
    (examType : String) (now : Int) :
    (store_rides db batch examType now).filter
        (fun r => r.examination_type != examType)
      = db.filter (fun r => r.examination_type != examType) := by
  simp only [store_rides, List.filter_append]
  have h1 : (db.filter (fun r => r.examination_type != examType)).filter
      (fun r => r.examination_type != examType)
      = db.filter (fun r => r.examination_type != examType) := by
    refine List.filter_eq_self.mpr ?_
    intro a ha
    exact (List.mem_filter.mp ha).2
  have h2 : (batch.map (fun ride =>
      Row.mk ride.name ride.date ride.time ride.location ride.cost examType now)).filter
        (fun r => r.examination_type != examType) = [] := by
    refine List.filter_eq_nil_iff.mpr ?_
    intro a ha
    obtain ⟨ride, _, rfl⟩ := List.mem_map.mp ha
    simp
  rw [h1, h2, List.append_nil]

theorem store_rides_idem (db : List Row) (batch : List Ride5)
    (examType : String) (now : Int) :
    store_rides (store_rides db batch examType now) batch examType now
      = store_rides db batch examType now := by
  have h := store_rides_filter_ne db batch examType now
  conv_lhs => rw [store_rides]
  rw [h, store_rides]

/-- C2 counterexample: re-storing the identical one-ride batch one
timestamp later produces a different comparable set and a non-empty
added-diff, because the comparable tuples include the `created_at`
insertion timestamp. -/
theorem restore_identical_batch_nonempty_diff :
    get_rides_as_set (store_rides (store_rides [] [sampleRide] "Kunskapsprov" 0)
        [sampleRide] "Kunskapsprov" 1) "Kunskapsprov"
      ≠ get_rides_as_set (store_rides [] [sampleRide] "Kunskapsprov" 0) "Kunskapsprov" ∧
    (get_rides_as_set (store_rides (store_rides [] [sampleRide] "Kunskapsprov" 0)
        [sampleRide] "Kunskapsprov" 1) "Kunskapsprov"
      \ get_rides_as_set (store_rides [] [sampleRide] "Kunskapsprov" 0) "Kunskapsprov") ≠ ∅ := by
  decide

/-- C2 amended: equality in the comparable set is the full stored record —
the six-tuple (name, date, time, location, cost, created_at) — so it
distinguishes records that agree on the first five fields but carry
different insertion timestamps; re-storing an identical batch reproduces an
identical comparable set with empty diffs exactly in the case where the
insertion timestamp is unchanged. -/
theorem get_rides_as_set_equality_is_full_record :
    (∀ a b : RideRecord, a = b ↔
      (a.name = b.name ∧ a.date = b.date ∧ a.time = b.time ∧
       a.location = b.location ∧ a.cost = b.cost ∧ a.created_at = b.created_at)) ∧
    (∀ (db : List Row) (batch : List Ride5) (examType : String) (now : Int),
      get_rides_as_set (store_rides (store_rides db batch examType now)
          batch examType now) examType
        = get_rides_as_set (store_rides db batch examType now) examType ∧
      get_rides_as_set (store_rides (store_rides db batch examType now)
          batch examType now) examType
          \ get_rides_as_set (store_rides db batch examType now) examType = ∅ ∧
      get_rides_as_set (store_rides db batch examType now) examType
          \ get_rides_as_set (store_rides (store_rides db batch examType now)
              batch examType now) examType = ∅) := by
  constructor
  · intro a b
    cases a
    cases b
    simp [RideRecord.mk.injEq, and_assoc]
  · intro db batch examType now
    rw [store_rides_idem db batch examType now]
    exact ⟨rfl, Finset.sdiff_self _, Finset.sdiff_self _⟩

/-- C3 counterexample: when every resource failed and the batch is empty,
the store is skipped, so the persisted rows of the previous cycle survive
and the comparable set is not the (empty) set of items fetched in that
cycle. -/
theorem empty_batch_cycle_keeps_stale_rows :
    (monitor_cycle (store_rides [] [sampleRide] "Kunskapsprov" 0)
        (get_rides_as_set (store_rides [] [sampleRide] "Kunskapsprov" 0) "Kunskapsprov")
        [] "Kunskapsprov" 1).db = store_rides [] [sampleRide] "Kunskapsprov" 0 ∧
    (monitor_cycle (store_rides [] [sampleRide] "Kunskapsprov" 0)
        (get_rides_as_set (store_rides [] [sampleRide] "Kunskapsprov" 0) "Kunskapsprov")
        [] "Kunskapsprov" 1).currentSet ≠ ∅ := by
  decide

/-- C3 amended: for a non-empty batch the cycle replaces the category
wholesale, so the persisted rows of the category are exactly the fetched
items stamped with the cycle timestamp; for the empty batch the store is
skipped and the previous persisted state is retained unchanged; in both
cases the reported diffs are `added = current − previous` and
`removed = previous − current`. -/
theorem monitor_cycle_replacement_and_diff (db : List Row)
    (last : Finset RideRecord) (batch : List Ride5) (examType : String) (now : Int) :
    (batch ≠ [] →
      (monitor_cycle db last batch examType now).db.filter
          (fun r => r.examination_type == examType)
        = batch.map (fun ride =>
            Row.mk ride.name ride.date ride.time ride.location ride.cost examType now)) ∧
    (batch = [] → (monitor_cycle db last batch examType now).db = db) ∧
    (monitor_cycle db last batch examType now).newRides
      = (monitor_cycle db last batch examType now).currentSet \ last ∧
    (monitor_cycle db last batch examType now).removedRides
      = last \ (monitor_cycle db last batch examType now).currentSet := by
  refine ⟨?_, ?_, rfl, rfl⟩
  · intro h
    simp only [monitor_cycle]
    rw [if_pos h]
    exact store_rides_filter_eq db batch examType now
  · intro h
    simp [monitor_cycle, h]

/-- Witness for C3: a one-ride batch over an empty database. -/
theorem monitor_cycle_replacement_and_diff_witness :
    (([sampleRide] : List Ride5) ≠ []) ∧
    (monitor_cycle [] ∅ [sampleRide] "Kunskapsprov" 0).db.filter
        (fun r => r.examination_type == "Kunskapsprov")
      = [sampleRide].map (fun ride =>
          Row.mk ride.name ride.date ride.time ride.location ride.cost "Kunskapsprov" 0) :=
  ⟨by decide,
    (monitor_cycle_replacement_and_diff [] ∅ [sampleRide] "Kunskapsprov" 0).1 (by decide)⟩

/-- C10: both extraction paths — the record stripper applied to the
detailed result and the bare dates list — read only `occasions[0]` of each
bundle: two bundle lists with the same first occasions produce the same
stripped records and the same dates, whatever occasions follow the first. -/
theorem strip_and_dates_use_first_occasion_only (bs bs2 : List Bundle)
    (h : bs.map (fun b => b.occasions.head?) = bs2.map (fun b => b.occasions.head?)) :
    strip_useless_info bs = strip_useless_info bs2 ∧ dates_found bs = dates_found bs2 := by
  induction bs generalizing bs2 with
  | nil =>
    cases bs2 with
    | nil => exact ⟨rfl, rfl⟩
    | cons b2 t2 => simp at h
  | cons b t ih =>
    cases bs2 with
    | nil => simp at h
    | cons b2 t2 =>
      simp only [List.map_cons, List.cons.injEq] at h
      obtain ⟨h1, h2⟩ := h
      obtain ⟨hs, hd⟩ := ih t2 h2
      constructor
      · simp only [strip_useless_info] at hs ⊢
        rw [List.mapM_cons, List.mapM_cons, h1, hs]
      · simp only [dates_found] at hd ⊢
        rw [List.mapM_cons, List.mapM_cons, h1, hd]

/-- Witness for C10: dropping the second occasion of a bundle changes
neither the stripped records nor the dates. -/
theorem strip_and_dates_use_first_occasion_only_witness :
    ([Bundle.mk [occMorning, occAfternoon]].map (fun b => b.occasions.head?)
      = [Bundle.mk [occMorning]].map (fun b => b.occasions.head?)) ∧
    strip_useless_info [Bundle.mk [occMorning, occAfternoon]]
      = strip_useless_info [Bundle.mk [occMorning]] :=
  ⟨by decide,
    (strip_and_dates_use_first_occasion_only [Bundle.mk [occMorning, occAfternoon]]
      [Bundle.mk [occMorning]] (by decide)).1⟩

/-! Round-trip counting lemmas for the polling client. -/

theorem is_session_expired_trips_le (rho : Nat → RenewalResp) (now : Int)
    (s : SMState × Nat) (text : String) :
    (is_session_expired rho now s text).2.2 ≤ s.2 + 1 := by
  simp only [is_session_expired, doRefresh]
  split <;> simp

theorem ensure_fresh_trips_le (rho : Nat → RenewalResp) (now : Int)
    (s : SMState × Nat) :
    (ensure_fresh_cookies rho now s).2.2 ≤ s.2 + 1 := by
  simp only [ensure_fresh_cookies, doRefresh]
  split <;> simp

theorem handle_session_error_trips_le (rho : Nat → RenewalResp) (now : Int)
    (s : SMState × Nat) (text : String) :
    (handle_session_error rho now s text).2.2 ≤ s.2 + 2 := by
  have hi := is_session_expired_trips_le rho now s text
  simp only [handle_session_error, doRefresh]
  split <;> simp <;> omega

theorem handle_response_requests (rho : Nat → RenewalResp) (now : Int)
    (s2 : SMState × Nat) (r : AvailResp) (reqs : Nat) (ext : Bool) :
    (handle_response rho now s2 r reqs ext).requestsSent = reqs := by
  simp only [handle_response]
  repeat' split
  all_goals rfl

theorem handle_response_trips_cases (rho : Nat → RenewalResp) (now : Int)
    (s2 : SMState × Nat) (r : AvailResp) (reqs : Nat) (ext : Bool) :
    (handle_response rho now s2 r reqs ext).roundTrips = s2.2 ∨
    (handle_response rho now s2 r reqs ext).roundTrips
      = (handle_session_error rho now s2 r.text).2.2 := by
  simp only [handle_response]
  repeat' split
  all_goals simp

/-- C5 counterexample: with a succeeding renewal oracle, the single
end-to-end call triggers two renewal round-trips — one inside each
session-error check — refuting at-most-one-renewal-per-call. -/
theorem get_available_dates_two_renewal_roundtrips :
    (get_available_dates renewalAlwaysSucceeds 0 freshState nullRefAvailResp
        nullRefAvailResp false).roundTrips = 2 := by
  decide

/-- C5 amended: the availability request itself is retried at most once per
call (at most two requests are ever sent), but a single call can trigger up
to five renewal round-trips: one from the pre-request freshness check and up
to two inside each of the up to two session-error checks. -/
theorem get_available_dates_retry_roundtrip_bounds (rho : Nat → RenewalResp)
    (now : Int) (st0 : SMState) (resp1 resp2 : AvailResp) (ext : Bool) :
    (get_available_dates rho now st0 resp1 resp2 ext).requestsSent ≤ 2 ∧
    (get_available_dates rho now st0 resp1 resp2 ext).roundTrips ≤ 5 := by
  have he : (ensure_fresh_cookies rho now (st0, 0)).2.2 ≤ 1 := by
    simpa using ensure_fresh_trips_le rho now (st0, 0)
  have hh1 := handle_session_error_trips_le rho now
    (ensure_fresh_cookies rho now (st0, 0)).2 resp1.text
  constructor
  · simp only [get_available_dates, handle_response_requests]
    split <;> omega
  · simp only [get_available_dates]
    rcases handle_response_trips_cases rho now
        (handle_session_error rho now (ensure_fresh_cookies rho now (st0, 0)).2 resp1.text).2
        (if (handle_session_error rho now
              (ensure_fresh_cookies rho now (st0, 0)).2 resp1.text).1 then resp2 else resp1)
        (if (handle_session_error rho now
              (ensure_fresh_cookies rho now (st0, 0)).2 resp1.text).1 then 2 else 1)
        ext with hc | hc
    · rw [hc]; omega
    · rw [hc]
      have hh2 := handle_session_error_trips_le rho now
        (handle_session_error rho now (ensure_fresh_cookies rho now (st0, 0)).2 resp1.text).2
        (if (handle_session_error rho now
              (ensure_fresh_cookies rho now (st0, 0)).2 resp1.text).1 then resp2 else resp1).text
      omega

/-- C6 counterexample: two concurrent callers of `ensure_fresh_cookies`,
both passing the staleness check before either renews (schedule 0,1,0,1),
perform two renewal round-trips instead of sharing one. -/
theorem concurrent_ensure_fresh_two_roundtrips :
    (runSchedule renewalAlwaysSucceeds 6 ⟨freshState, 0, [TPC.start, TPC.start]⟩
        [0, 1, 0, 1]).trips = 2 ∧
    (runSchedule renewalAlwaysSucceeds 6 ⟨freshState, 0, [TPC.start, TPC.start]⟩
        [0, 1, 0, 1]).pcs = [TPC.finished true, TPC.finished true] := by
  decide

/-- C6 amended: no mutex exists in the manager, so renewal attempts are not
serialized: whenever renewal is due, two concurrent callers that both pass
the staleness check before either completes each start their own round-trip
— two round-trips for two callers, whatever the renewal endpoint answers —
instead of the waiting caller observing the first caller's result. -/
theorem concurrent_ensure_fresh_not_serialized (rho : Nat → RenewalResp)
    (now : Int) (sm : SMState) (h : should_refresh_cookies sm now = true) :
    (runSchedule rho now ⟨sm, 0, [TPC.start, TPC.start]⟩ [0, 1, 0, 1]).trips = 2 := by
  simp [runSchedule, stepThread, h]

/-- Witness for C6: the concrete due state at minute 6 with a failing
renewal endpoint. -/
theorem concurrent_ensure_fresh_not_serialized_witness :
    should_refresh_cookies freshState 6 = true ∧
    (runSchedule renewalAlwaysFails 6 ⟨freshState, 0, [TPC.start, TPC.start]⟩
        [0, 1, 0, 1]).trips = 2 :=
  ⟨by decide,
    concurrent_ensure_fresh_not_serialized renewalAlwaysFails 6 freshState (by decide)⟩

/-! Outcome enumeration for the polling client. -/

theorem handle_response_outcome_cases (rho : Nat → RenewalResp) (now : Int)
    (s2 : SMState × Nat) (r : AvailResp) (reqs : Nat) (ext : Bool) :
    ((∃ bs, (handle_response rho now s2 r reqs ext).outcome = Outcome.bundlesResult bs) ∨
     (∃ ds, (handle_response rho now s2 r reqs ext).outcome = Outcome.datesResult ds) ∨
     (∃ c, (handle_response rho now s2 r reqs ext).outcome = Outcome.httpStatusError c) ∨
     (handle_response rho now s2 r reqs ext).outcome = Outcome.sessionExpiredError ∨
     (handle_response rho now s2 r reqs ext).outcome = Outcome.keyError "status" ∨
     (handle_response rho now s2 r reqs ext).outcome = Outcome.keyError "data" ∨
     (handle_response rho now s2 r reqs ext).outcome = Outcome.keyError "bundles" ∨
     (handle_response rho now s2 r reqs ext).outcome = Outcome.indexError) ∧
    (r.json = none →
      (handle_response rho now s2 r reqs ext).outcome = Outcome.sessionExpiredError ∨
      (handle_response rho now s2 r reqs ext).outcome
        = Outcome.httpStatusError r.statusCode) := by
  constructor
  · simp only [handle_response]
    repeat' split
    all_goals simp
  · intro hj
    simp only [handle_response, hj]
    split
    · split
      · left; rfl
      · right; rfl
    · right; rfl

/-- C4 counterexample: a transport-ok response whose valid JSON misses the
`data` key escapes as an uncaught `KeyError`, and one whose bundle carries
an empty `occasions` list escapes as an uncaught `IndexError` — neither is
one of the documented failure kinds. -/
theorem get_available_dates_uncaught_escapes :
    (get_available_dates renewalAlwaysFails 0 freshState missingDataResp
        missingDataResp false).outcome = Outcome.keyError "data" ∧
    (get_available_dates renewalAlwaysFails 0 freshState emptyOccasionsResp
        emptyOccasionsResp false).outcome = Outcome.indexError := by
  decide

/-- C4 amended: the only outcomes of a call are the returned lists, the two
documented failures, and the uncaught `KeyError`/`IndexError` escapes; a
transport-ok body that is invalid JSON is indeed always classified as
Session-Expired or Unexpected-Status, but valid JSON missing the
`status`/`data`/`bundles` structure or carrying an empty `occasions` list
escapes the call as `KeyError`/`IndexError`. -/
theorem get_available_dates_outcome_kinds (rho : Nat → RenewalResp) (now : Int)
    (st0 : SMState) (resp1 resp2 : AvailResp) (ext : Bool) :
    ((∃ bs, (get_available_dates rho now st0 resp1 resp2 ext).outcome
        = Outcome.bundlesResult bs) ∨
     (∃ ds, (get_available_dates rho now st0 resp1 resp2 ext).outcome
        = Outcome.datesResult ds) ∨
     (∃ c, (get_available_dates rho now st0 resp1 resp2 ext).outcome
        = Outcome.httpStatusError c) ∨
     (get_available_dates rho now st0 resp1 resp2 ext).outcome
        = Outcome.sessionExpiredError ∨
     (get_available_dates rho now st0 resp1 resp2 ext).outcome
        = Outcome.keyError "status" ∨
     (get_available_dates rho now st0 resp1 resp2 ext).outcome
        = Outcome.keyError "data" ∨
     (get_available_dates rho now st0 resp1 resp2 ext).outcome
        = Outcome.keyError "bundles" ∨
     (get_available_dates rho now st0 resp1 resp2 ext).outcome
        = Outcome.indexError) ∧
    (resp1.json = none → resp2.json = none →
      (get_available_dates rho now st0 resp1 resp2 ext).outcome
        = Outcome.sessionExpiredError ∨
      ∃ c, (get_available_dates rho now st0 resp1 resp2 ext).outcome
        = Outcome.httpStatusError c) := by
  constructor
  · simp only [get_available_dates]
    exact (handle_response_outcome_cases rho now
      (handle_session_error rho now (ensure_fresh_cookies rho now (st0, 0)).2 resp1.text).2
      (if (handle_session_error rho now
            (ensure_fresh_cookies rho now (st0, 0)).2 resp1.text).1 then resp2 else resp1)
      (if (handle_session_error rho now
            (ensure_fresh_cookies rho now (st0, 0)).2 resp1.text).1 then 2 else 1)
      ext).1
  · intro hj1 hj2
    simp only [get_available_dates]
    have hr : (if (handle_session_error rho now
          (ensure_fresh_cookies rho now (st0, 0)).2 resp1.text).1 then resp2
        else resp1).json = none := by
      split <;> assumption
    rcases (handle_response_outcome_cases rho now
        (handle_session_error rho now (ensure_fresh_cookies rho now (st0, 0)).2 resp1.text).2
        (if (handle_session_error rho now
              (ensure_fresh_cookies rho now (st0, 0)).2 resp1.text).1 then resp2 else resp1)
        (if (handle_session_error rho now
              (ensure_fresh_cookies rho now (st0, 0)).2 resp1.text).1 then 2 else 1)
        ext).2 hr with h | h
    · exact Or.inl h
    · exact Or.inr ⟨_, h⟩

/-- Witness for C4: a call on an invalid-JSON body is classified into the
documented kinds. -/
theorem get_available_dates_outcome_kinds_witness :
    (get_available_dates renewalAlwaysFails 0 freshState invalidJsonResp
        invalidJsonResp false).outcome = Outcome.sessionExpiredError ∨
    ∃ c, (get_available_dates renewalAlwaysFails 0 freshState invalidJsonResp
        invalidJsonResp false).outcome = Outcome.httpStatusError c :=
  (get_available_dates_outcome_kinds renewalAlwaysFails 0 freshState invalidJsonResp
    invalidJsonResp false).2 rfl rfl

end Trafikverket
